import Mathlib

/-!
Verification development for the RISC-V IOMMU DXE driver
(UefiCpuPkg/RiscVIoMmuDxe).  The C sources are shallowly embedded:
machine integers are natural numbers reduced modulo 2^64 (or 2^32)
exactly where the C performs fixed-width arithmetic, memory-mapped
register programming is modelled as an explicit list of
(offset, value) writes, and fallible external services
(page allocation) are modelled as oracle functions returning Option.
-/

/-- Modulus of 64-bit machine arithmetic (UINT64 / UINTN / EFI_PHYSICAL_ADDRESS). -/
def U64 : Nat := 2 ^ 64

/-- SIZE_4KB from MdePkg Base.h. -/
def SIZE_4KB : Nat := 0x1000

/-- SIZE_4GB from MdePkg Base.h. -/
def SIZE_4GB : Nat := 0x100000000

/-- Extract the `w`-bit field of `v` starting at bit `lo` (C bit-field read). -/
def getBits (v lo w : Nat) : Nat := (v / 2 ^ lo) % 2 ^ w

/-- Overwrite the `w`-bit field of `v` starting at bit `lo` with `x`
(C bit-field write): bits above and below the field are preserved. -/
def setBits (v lo w x : Nat) : Nat :=
  (v / 2 ^ (lo + w)) * 2 ^ (lo + w) + (x % 2 ^ w) * 2 ^ lo + v % 2 ^ lo

/-- EDKII_IOMMU_OPERATION value EdkiiIoMmuOperationBusMasterRead (Protocol/IoMmu.h). -/
def EdkiiIoMmuOperationBusMasterRead : Nat := 0

/-- EDKII_IOMMU_OPERATION value EdkiiIoMmuOperationBusMasterWrite. -/
def EdkiiIoMmuOperationBusMasterWrite : Nat := 1

/-- EDKII_IOMMU_OPERATION value EdkiiIoMmuOperationBusMasterCommonBuffer. -/
def EdkiiIoMmuOperationBusMasterCommonBuffer : Nat := 2

/-- EDKII_IOMMU_OPERATION value EdkiiIoMmuOperationBusMasterRead64. -/
def EdkiiIoMmuOperationBusMasterRead64 : Nat := 3

/-- EDKII_IOMMU_OPERATION value EdkiiIoMmuOperationBusMasterWrite64. -/
def EdkiiIoMmuOperationBusMasterWrite64 : Nat := 4

/-- EDKII_IOMMU_OPERATION value EdkiiIoMmuOperationBusMasterCommonBuffer64. -/
def EdkiiIoMmuOperationBusMasterCommonBuffer64 : Nat := 5

/-- EDKII_IOMMU_OPERATION value EdkiiIoMmuOperationMaximum (first invalid value). -/
def EdkiiIoMmuOperationMaximum : Nat := 6

/-- Driver state STATE_INIT (RiscVIoMmu.h). -/
def STATE_INIT : Nat := 0

/-- Driver state STATE_DETECTED. -/
def STATE_DETECTED : Nat := 1

/-- Driver state STATE_AVAILABLE. -/
def STATE_AVAILABLE : Nat := 2

/-- Driver state STATE_INITIALISED. -/
def STATE_INITIALISED : Nat := 3

/-- SATP mode-field value for Sv32 (standard RISC-V satp encoding; the
`SATP_MODE_*` constants come from edk2's RiscVImpl.h, outside this package). -/
def SATP_MODE_SV32 : Nat := 1

/-- SATP mode-field value for Sv39. -/
def SATP_MODE_SV39 : Nat := 8

/-- SATP mode-field value for Sv48. -/
def SATP_MODE_SV48 : Nat := 9

/-- SATP mode-field value for Sv57. -/
def SATP_MODE_SV57 : Nat := 10

/-- SATP mode-field value for Sv64. -/
def SATP_MODE_SV64 : Nat := 11

/-- The HART SATP mode computed as `(satp & SATP64_MODE) >> SATP64_MODE_SHIFT`,
i.e. the top nibble (bits 63:60) of the 64-bit satp value. -/
def HartSatpModeOf (Satp : Nat) : Nat := getBits Satp 60 4

/-- The GXL bit of the IOMMU feature-control register (RISCV_IOMMU_FCTL:
BE bit 0, WSI bit 1, GXL bit 2). -/
def FctlGXL (Fctl : Nat) : Nat := getBits Fctl 2 1

/-- RiscVGetIoMmuMemoryTop from IoMmuProtocol.c, as a function of the
feature-control register value and the HART satp value.  `none` models
the `ASSERT (FALSE)` abort on an unrecognized paging mode. -/
def RiscVGetIoMmuMemoryTop (Fctl Satp : Nat) : Option Nat :=
  if FctlGXL Fctl = 1 then
    some (2 ^ 32 - 1)
  else
    let HartSatpMode := HartSatpModeOf Satp
    if HartSatpMode = SATP_MODE_SV39 then some (2 ^ 39 - 1)
    else if HartSatpMode = SATP_MODE_SV48 then some (2 ^ 48 - 1)
    else if HartSatpMode = SATP_MODE_SV57 then some (2 ^ 57 - 1)
    else none

/-- ALIGN_VALUE macro from MdePkg Base.h:
`(Value) + (((Alignment) - (Value)) & ((Alignment) - 1))`, with the
subtraction and the sum performed in 64-bit wrap-around arithmetic. -/
def ALIGN_VALUE (Value Alignment : Nat) : Nat :=
  (Value + (((Alignment + U64 - Value % U64) % U64) % Alignment)) % U64

/-- Result of the remap-decision phase of IoMmuMap (IoMmuProtocol.c lines
269-296): the final value of `NeedRemap` and the final value of
`DmaMemoryTop`. -/
structure MapDecision where
  NeedRemap : Bool
  DmaMemoryTop : Nat
deriving DecidableEq, Repr

/-- The condition of the first remap test in IoMmuMap (line 272):
`(PhysicalAddress + *NumberOfBytes) >= DmaMemoryTop`, the 64-bit machine
sum compared against the memory top. -/
def MapCond1 (PhysicalAddress NumberOfBytes Top0 : Nat) : Prop :=
  (PhysicalAddress + NumberOfBytes) % U64 ≥ Top0

instance (a b c : Nat) : Decidable (MapCond1 a b c) := by
  unfold MapCond1; infer_instance

/-- The condition of the second remap test in IoMmuMap (lines 280-283):
the operation is none of the 64-bit variants and the 64-bit machine sum
`PhysicalAddress + *NumberOfBytes` exceeds SIZE_4GB. -/
def MapCond2 (Operation PhysicalAddress NumberOfBytes : Nat) : Prop :=
  (Operation ≠ EdkiiIoMmuOperationBusMasterRead64 ∧
   Operation ≠ EdkiiIoMmuOperationBusMasterWrite64 ∧
   Operation ≠ EdkiiIoMmuOperationBusMasterCommonBuffer64) ∧
  (PhysicalAddress + NumberOfBytes) % U64 > SIZE_4GB

instance (a b c : Nat) : Decidable (MapCond2 a b c) := by
  unfold MapCond2; infer_instance

/-- The condition of the third remap test in IoMmuMap (lines 291-294):
the operation is not a common-buffer variant and the address or the
length differs from its ALIGN_VALUE 4 KiB round-up. -/
def MapCond3 (Operation PhysicalAddress NumberOfBytes : Nat) : Prop :=
  (Operation ≠ EdkiiIoMmuOperationBusMasterCommonBuffer ∧
   Operation ≠ EdkiiIoMmuOperationBusMasterCommonBuffer64) ∧
  (PhysicalAddress ≠ ALIGN_VALUE PhysicalAddress SIZE_4KB ∨
   NumberOfBytes ≠ ALIGN_VALUE NumberOfBytes SIZE_4KB)

instance (a b c : Nat) : Decidable (MapCond3 a b c) := by
  unfold MapCond3; infer_instance

/-- The remap-decision phase of IoMmuMap, translated statement by
statement from IoMmuProtocol.c lines 269-296: `NeedRemap` starts FALSE
and each of the three `if` statements may set it; the second one also
caps `DmaMemoryTop` at 4 GiB - 1.  `Top0` is the value returned by
RiscVGetIoMmuMemoryTop. -/
def IoMmuMapDecision (Operation PhysicalAddress NumberOfBytes Top0 : Nat) : MapDecision :=
  let NeedRemap1 : Bool :=
    if MapCond1 PhysicalAddress NumberOfBytes Top0 then true else false
  let NeedRemap2 :=
    if MapCond2 Operation PhysicalAddress NumberOfBytes then true else NeedRemap1
  let Top1 :=
    if MapCond2 Operation PhysicalAddress NumberOfBytes then
      min Top0 (SIZE_4GB - 1) else Top0
  let NeedRemap3 :=
    if MapCond3 Operation PhysicalAddress NumberOfBytes then true else NeedRemap2
  ⟨NeedRemap3, Top1⟩

/-- EFI status codes returned by the modelled driver routines, plus a
distinguished value for an ASSERT firing (a fatal precondition abort). -/
inductive EfiStatus where
  | success
  | invalidParameter
  | unsupported
  | outOfResources
  | deviceError
  | assertFailed
deriving DecidableEq, Repr

/-- Byte-addressed system memory. -/
def Mem : Type := Nat → Nat

/-- CopyMem (Destination, Source, Length): the destination range takes
the source range's bytes from the pre-state; everything else is
unchanged. -/
def CopyMem (Destination Source Length : Nat) (m : Mem) : Mem :=
  fun a => if Destination ≤ a ∧ a < Destination + Length then
    m (Source + (a - Destination)) else m a

/-- EFI_SIZE_TO_PAGES: `(Size >> 12) + ((Size & 0xFFF) ? 1 : 0)`. -/
def EFI_SIZE_TO_PAGES (Size : Nat) : Nat :=
  Size / 2 ^ 12 + (if Size % 2 ^ 12 ≠ 0 then 1 else 0)

/-- MAP_INFO_SIGNATURE = SIGNATURE_32 ('D', 'M', 'A', 'P'). -/
def MAP_INFO_SIGNATURE : Nat := 0x50414D44

/-- The MAP_INFO record IoMmuMap allocates and IoMmuUnmap consumes. -/
structure MAP_INFO where
  Signature : Nat
  Operation : Nat
  HostAddress : Nat
  NumberOfBytes : Nat
  DeviceAddress : Nat
deriving DecidableEq, Repr

/-- Observable outcome of one IoMmuMap call: the returned status, the
final value of the in/out `*NumberOfBytes`, the value stored through
`*DeviceAddress` (`none` when the call returns without writing it), the
MAP_INFO record handed back through `*Mapping`, the resulting memory,
and the bounce allocation performed (base, page count), if any. -/
structure MapOutcome where
  status : EfiStatus
  numberOfBytes : Nat
  deviceAddress : Option Nat
  mapping : Option MAP_INFO
  mem : Mem
  allocatedPages : Option (Nat × Nat)

/-- IoMmuMap from IoMmuProtocol.c.  `PoolAvail` models whether the
`AllocatePool (sizeof (MAP_INFO))` call succeeds; `AllocatePages maxAddr
pages` models `gBS->AllocatePages (AllocateMaxAddress, ...)`, returning
the allocated base or `none` on failure.  The `HostAddress = 0` test is
the NULL-pointer check (the host address is the pointer's value).
`none` models the ASSERT abort inside RiscVGetIoMmuMemoryTop. -/
def IoMmuMap (Operation HostAddress NumberOfBytes Fctl Satp : Nat)
    (PoolAvail : Bool) (AllocatePages : Nat → Nat → Option Nat)
    (m : Mem) : Option MapOutcome :=
  if Operation ≥ EdkiiIoMmuOperationMaximum then
    some ⟨.invalidParameter, NumberOfBytes, none, none, m, none⟩
  else if HostAddress = 0 then
    some ⟨.invalidParameter, NumberOfBytes, none, none, m, none⟩
  else
    match RiscVGetIoMmuMemoryTop Fctl Satp with
    | none => none
    | some Top0 =>
      if (Operation = EdkiiIoMmuOperationBusMasterCommonBuffer ∨
          Operation = EdkiiIoMmuOperationBusMasterCommonBuffer64) ∧
         (IoMmuMapDecision Operation HostAddress NumberOfBytes Top0).NeedRemap then
        some ⟨.unsupported, NumberOfBytes, none, none, m, none⟩
      else if ¬ PoolAvail then
        some ⟨.outOfResources, 0, none, none, m, none⟩
      else if (IoMmuMapDecision Operation HostAddress NumberOfBytes Top0).NeedRemap then
        match AllocatePages
            (IoMmuMapDecision Operation HostAddress NumberOfBytes Top0).DmaMemoryTop
            (EFI_SIZE_TO_PAGES NumberOfBytes) with
        | none => some ⟨.outOfResources, 0, none, none, m, none⟩
        | some Addr =>
          some ⟨.success, NumberOfBytes, some Addr,
                some ⟨MAP_INFO_SIGNATURE, Operation, HostAddress, NumberOfBytes, Addr⟩,
                (if Operation = EdkiiIoMmuOperationBusMasterRead ∨
                    Operation = EdkiiIoMmuOperationBusMasterRead64 then
                   CopyMem Addr HostAddress NumberOfBytes m
                 else m),
                some (Addr, EFI_SIZE_TO_PAGES NumberOfBytes)⟩
      else
        some ⟨.success, NumberOfBytes, some HostAddress,
              some ⟨MAP_INFO_SIGNATURE, Operation, HostAddress, NumberOfBytes, HostAddress⟩,
              m, none⟩

/-- Observable outcome of one IoMmuUnmap call: status, resulting memory,
the page range released with `gBS->FreePages` (if any), and whether the
MAP_INFO pool record was released. -/
structure UnmapOutcome where
  status : EfiStatus
  mem : Mem
  freedPages : Option (Nat × Nat)
  freedPool : Bool

/-- IoMmuUnmap from IoMmuProtocol.c.  `MappingIsNull` models the
`Mapping == NULL` check; `mi` is the MAP_INFO record behind the handle. -/
def IoMmuUnmap (MappingIsNull : Bool) (mi : MAP_INFO) (m : Mem) : UnmapOutcome :=
  if MappingIsNull then ⟨.invalidParameter, m, none, false⟩
  else if mi.Signature ≠ MAP_INFO_SIGNATURE then ⟨.invalidParameter, m, none, false⟩
  else if mi.DeviceAddress ≠ mi.HostAddress then
    let m' := if mi.Operation = EdkiiIoMmuOperationBusMasterWrite ∨
                 mi.Operation = EdkiiIoMmuOperationBusMasterWrite64 then
                CopyMem mi.HostAddress mi.DeviceAddress mi.NumberOfBytes m
              else m
    ⟨.success, m', some (mi.DeviceAddress, EFI_SIZE_TO_PAGES mi.NumberOfBytes), true⟩
  else
    ⟨.success, m, none, true⟩

/-- Queue type QUEUE_COMMAND (RiscVIoMmu.h). -/
def QUEUE_COMMAND : Nat := 0

/-- Queue type QUEUE_FAULT. -/
def QUEUE_FAULT : Nat := 1

/-- Queue type QUEUE_PAGE_REQUEST. -/
def QUEUE_PAGE_REQUEST : Nat := 2

/-- QUEUE_NUMBER_OF_ENTRIES (RiscVIoMmu.h). -/
def QUEUE_NUMBER_OF_ENTRIES : Nat := 128

/-- QUEUE_MAX_LOG_SIZE (RiscVIoMmuRegisters.h). -/
def QUEUE_MAX_LOG_SIZE : Nat := 16

/-- DDTP iommu_mode value Off. -/
def V_RISCV_IOMMU_DDTP_IOMMU_MODE_OFF : Nat := 0

/-- DDTP iommu_mode value Bare. -/
def V_RISCV_IOMMU_DDTP_IOMMU_MODE_BARE : Nat := 1

/-- DDTP iommu_mode value 1LVL. -/
def V_RISCV_IOMMU_DDTP_IOMMU_MODE_1LVL : Nat := 2

/-- DDTP iommu_mode value 2LVL. -/
def V_RISCV_IOMMU_DDTP_IOMMU_MODE_2LVL : Nat := 3

/-- DDTP iommu_mode value 3LVL. -/
def V_RISCV_IOMMU_DDTP_IOMMU_MODE_3LVL : Nat := 4

/-- Supported IOMMU architectural version (RiscVIoMmuRegisters.h). -/
def V_RISCV_IOMMU_CAPABILITIES_VERSION_1_0 : Nat := 0x10

/-- Modelled from the spec: the maximum device-id widths addressable by a
one-level and a two-level device-context table, for the base and the
extended (MSI-flat) context-structure layouts.  The constants
`N_RISCV_IOMMU_DEVICE_ID_{BASE,EXTENDED}_I{1,2}` are used by
RiscVIoMmuDxe.c but their defining header is not among the sources; the
spec says only that the per-level capacity is a function of the
extended-layout flag (wider entries consume address bits faster).  The
values here are the RISC-V IOMMU architecture's device-id partition
widths: base format 7/16 bits, extended format 6/15 bits. -/
def N_RISCV_IOMMU_DEVICE_ID_BASE_I1 : Nat := 7

/-- Modelled from the spec: two-level capacity, base layout (see
N_RISCV_IOMMU_DEVICE_ID_BASE_I1). -/
def N_RISCV_IOMMU_DEVICE_ID_BASE_I2 : Nat := 16

/-- Modelled from the spec: one-level capacity, extended layout (see
N_RISCV_IOMMU_DEVICE_ID_BASE_I1). -/
def N_RISCV_IOMMU_DEVICE_ID_EXTENDED_I1 : Nat := 6

/-- Modelled from the spec: two-level capacity, extended layout (see
N_RISCV_IOMMU_DEVICE_ID_BASE_I1). -/
def N_RISCV_IOMMU_DEVICE_ID_EXTENDED_I2 : Nat := 15

/-- DeviceIdSupportedWidth as fixed by RiscVIoMmuDxe.c line 203. -/
def DeviceIdSupportedWidth : Nat := 16

/-- HighBitSet32 applied to a UINT32 operand and stored into a UINTN
`Log2Size` variable: the index of the operand's highest set bit, or
(UINTN)(-1) when the operand is zero. -/
def Log2SizeOf (EntryCount : Nat) : Nat :=
  if EntryCount % 2 ^ 32 = 0 then U64 - 1 else Nat.log2 (EntryCount % 2 ^ 32)

/-- 64-bit wrap-around subtraction (UINTN arithmetic). -/
def sub64 (a b : Nat) : Nat := (a % U64 + (U64 - b % U64)) % U64

/-- The body of AllocateQueue after the register-offset switch
(RiscVIoMmuDxe.c lines 144-172), generalised over the entry count (the
source fixes it to QUEUE_NUMBER_OF_ENTRIES).  `Buf` is the page-aligned
buffer returned by AllocateAlignedPages; `Junk` stands for the value of
the uninitialized stack unions whose named bit-fields the code assigns
before writing them out.  The result is the ordered list of (register
offset, value) writes, or `none` when an ASSERT fires — which happens
before any register write. -/
def AllocateQueueRegs (QueueBaseReg QueueHeadTailReg QueueCsrReg
    EntryCount Buf Junk : Nat) : Option (List (Nat × Nat)) :=
  if ¬ (EntryCount ≠ 0 ∧ EntryCount % 2 = 0) then none
  else if ¬ (sub64 (Log2SizeOf EntryCount) 1 < QUEUE_MAX_LOG_SIZE) then none
  else
    some [(QueueBaseReg, setBits (setBits Junk 10 44 (Buf / 2 ^ 12)) 0 5
             (sub64 (Log2SizeOf EntryCount) 1)),
          (QueueHeadTailReg, 0),
          (QueueCsrReg, setBits Junk 0 1 1)]

/-- AllocateQueue from RiscVIoMmuDxe.c: the register-offset switch on
the queue type (command 0x18/0x24/0x48, fault 0x28/0x30/0x4c,
page-request 0x38/0x40/0x50; an unknown type is `ASSERT (FALSE)`),
followed by the size-assertion/programming body. -/
def AllocateQueue (QueueType EntryCount Buf Junk : Nat) :
    Option (List (Nat × Nat)) :=
  if QueueType = QUEUE_COMMAND then
    AllocateQueueRegs 0x18 0x24 0x48 EntryCount Buf Junk
  else if QueueType = QUEUE_FAULT then
    AllocateQueueRegs 0x28 0x30 0x4c EntryCount Buf Junk
  else if QueueType = QUEUE_PAGE_REQUEST then
    AllocateQueueRegs 0x38 0x40 0x50 EntryCount Buf Junk
  else none

/-- The pure mode-selection logic of ProgramContextRoot
(RiscVIoMmuDxe.c lines 197-231), as a function of the extended-layout
flag and the required device-id width: `IoMmuMode` starts at BARE and
the cascaded `if` picks the first (smallest) level whose capacity covers
the width. -/
def ProgramContextRootMode (ContextStructIsExtended : Bool) (Width : Nat) : Nat :=
  if Width ≤ (if ContextStructIsExtended then N_RISCV_IOMMU_DEVICE_ID_EXTENDED_I1
              else N_RISCV_IOMMU_DEVICE_ID_BASE_I1) then
    V_RISCV_IOMMU_DDTP_IOMMU_MODE_1LVL
  else if Width ≤ (if ContextStructIsExtended then N_RISCV_IOMMU_DEVICE_ID_EXTENDED_I2
                   else N_RISCV_IOMMU_DEVICE_ID_BASE_I2) then
    V_RISCV_IOMMU_DDTP_IOMMU_MODE_2LVL
  else if Width ≤ 24 then V_RISCV_IOMMU_DDTP_IOMMU_MODE_3LVL
  else V_RISCV_IOMMU_DDTP_IOMMU_MODE_BARE

/-- ProgramContextRoot from RiscVIoMmuDxe.c, generalised over the
device-id width (the source fixes it to DeviceIdSupportedWidth = 16).
`Cap` is the capability register (bit 22 = MSI_FLAT selects the extended
layout), `Buf` the allocated root page, `Junk` the uninitialized stack
union's residual value, `DdtpResetVal` the DDTP register's value before
the call (the hardware retains it when a written mode is unsupported),
and `DdtpModeSupported` tells which iommu_mode values the hardware
accepts.  The result is (success, list of DDTP register writes). -/
def ProgramContextRoot (Cap Width Buf Junk DdtpResetVal : Nat)
    (DdtpModeSupported : Nat → Bool) : Bool × List (Nat × Nat) :=
  let ContextStructIsExtended := getBits Cap 22 1 = 1
  let IoMmuMode := ProgramContextRootMode ContextStructIsExtended Width
  let Written1 := setBits Junk 0 4 IoMmuMode
  let Readback := if DdtpModeSupported (getBits Written1 0 4) then Written1
                  else DdtpResetVal
  if getBits Readback 0 4 ≠ IoMmuMode then (false, [(0x10, Written1)])
  else
    let Written2 := setBits (setBits Readback 0 4 IoMmuMode) 10 44 (Buf / 2 ^ 12)
    (true, [(0x10, Written1), (0x10, Written2)])

/-- The IOMMU hardware and execution environment visible to the
initialization sequencer: the register values it reads, the HART CSRs,
which DDTP modes the device accepts, the buffers the (always-asserted-
successful) allocators return, and the residual value of uninitialized
stack unions. -/
structure IoMmuHw where
  Cqcsr : Nat
  Fqcsr : Nat
  Pqcsr : Nat
  Ddtp : Nat
  Ipsr : Nat
  Capabilities : Nat
  Fctl : Nat
  Sstatus : Nat
  Satp : Nat
  DdtpModeSupported : Nat → Bool
  CmdQueueBuf : Nat
  FltQueueBuf : Nat
  PrqQueueBuf : Nat
  CtxBuf : Nat
  Junk : Nat

/-- IoMmuIsReset from RiscVIoMmuDxe.c: all three queue CSRs have
qen (bit 0), ie (bit 1), qon (bit 16) and busy (bit 17) clear, the DDTP
busy bit (bit 4) is clear, the interrupt-pending register is all zero,
and the DDTP iommu_mode is Off. -/
def IoMmuIsReset (hw : IoMmuHw) : Bool :=
  let QueueOk := fun v => getBits v 0 1 = 0 ∧ getBits v 1 1 = 0 ∧
                          getBits v 16 1 = 0 ∧ getBits v 17 1 = 0
  decide (QueueOk hw.Cqcsr) && decide (QueueOk hw.Fqcsr) && decide (QueueOk hw.Pqcsr) &&
  decide (getBits hw.Ddtp 4 1 = 0) && decide (hw.Ipsr % 2 ^ 32 = 0) &&
  decide (getBits hw.Ddtp 0 4 = V_RISCV_IOMMU_DDTP_IOMMU_MODE_OFF)

/-- InitialiseRiscVIoMmu from RiscVIoMmuDxe.c: the hardware bring-up
sequence, returning the status and the ordered list of register writes
performed.  `assertFailed` models an ASSERT firing. -/
def InitialiseRiscVIoMmu (hw : IoMmuHw) : EfiStatus × List (Nat × Nat) :=
  if ¬ IoMmuIsReset hw then (.assertFailed, [])
  else if getBits hw.Capabilities 0 8 ≠ V_RISCV_IOMMU_CAPABILITIES_VERSION_1_0 then
    (.unsupported, [])
  else
    let HartIsBigEndian := getBits hw.Sstatus 6 1 = 1
    let SwitchBE := HartIsBigEndian ∧ getBits hw.Fctl 0 1 = 0
    if SwitchBE ∧ getBits hw.Capabilities 27 1 = 0 then (.unsupported, [])
    else
      let Fctl1 := if SwitchBE ∧ getBits hw.Capabilities 27 1 = 1 then
          setBits hw.Fctl 0 1 1 else hw.Fctl
      let W1 : List (Nat × Nat) :=
        if SwitchBE ∧ getBits hw.Capabilities 27 1 = 1 then [(0x08, Fctl1)] else []
      let M := HartSatpModeOf hw.Satp
      if M = SATP_MODE_SV64 ∨
         (M = SATP_MODE_SV57 ∧ getBits hw.Capabilities 11 1 = 0) ∨
         (M = SATP_MODE_SV48 ∧ getBits hw.Capabilities 10 1 = 0) ∨
         (M = SATP_MODE_SV39 ∧ getBits hw.Capabilities 9 1 = 0) ∨
         (M = SATP_MODE_SV32 ∧ getBits hw.Capabilities 8 1 = 0) then
        (.unsupported, W1)
      else
        let Fctl2 := setBits Fctl1 2 1 (if M = SATP_MODE_SV32 then 1 else 0)
        let W2 := W1 ++ [(0x08, Fctl2)]
        match AllocateQueue QUEUE_COMMAND QUEUE_NUMBER_OF_ENTRIES hw.CmdQueueBuf hw.Junk with
        | none => (.assertFailed, W2)
        | some Wc =>
          match AllocateQueue QUEUE_FAULT QUEUE_NUMBER_OF_ENTRIES hw.FltQueueBuf hw.Junk with
          | none => (.assertFailed, W2 ++ Wc)
          | some Wf =>
            match (if getBits hw.Capabilities 25 1 = 1 then
                AllocateQueue QUEUE_PAGE_REQUEST QUEUE_NUMBER_OF_ENTRIES hw.PrqQueueBuf hw.Junk
              else some []) with
            | none => (.assertFailed, W2 ++ Wc ++ Wf)
            | some Wp =>
              let R := ProgramContextRoot hw.Capabilities DeviceIdSupportedWidth
                  hw.CtxBuf hw.Junk hw.Ddtp hw.DdtpModeSupported
              if ¬ R.1 then (.unsupported, W2 ++ Wc ++ Wf ++ Wp ++ R.2)
              else (.success, W2 ++ Wc ++ Wf ++ Wp ++ R.2)

/-- The part of the global driver context the modelled operations
touch (RISCV_IOMMU_GLOBAL_DRIVER_CONTEXT). -/
structure DriverCtx where
  DriverState : Nat
  IoMmuIsPciDevice : Bool
  Address : Nat
deriving DecidableEq, Repr

/-- Outcome of one IoMmuCommonInitialise call: returned status, the
resulting driver context, the IOMMU register writes performed, and the
ordered list of values stored to DriverState. -/
structure InitOutcome where
  status : EfiStatus
  ctx : DriverCtx
  regWrites : List (Nat × Nat)
  stateStores : List Nat
deriving Repr

/-- IoMmuCommonInitialise from RiscVIoMmuDxe.c: returns success at once
when the state already reached STATE_INITIALISED; otherwise stores
STATE_INITIALISED and runs the hardware initialisation worker.
(SetMemoryAttributes and the protocol installation are external calls
whose failure the code converts into ASSERTs; they are modelled as
succeeding.) -/
def IoMmuCommonInitialise (ctx : DriverCtx) (hw : IoMmuHw) : InitOutcome :=
  if ctx.DriverState ≥ STATE_INITIALISED then ⟨.success, ctx, [], []⟩
  else
    ⟨(InitialiseRiscVIoMmu hw).1, { ctx with DriverState := STATE_INITIALISED },
     (InitialiseRiscVIoMmu hw).2, [STATE_INITIALISED]⟩

/-- One node of the ACPI RIMT node array, as far as
IoMmuAcpiRimtDiscovery reads it: whether its type is
RISCV_IOMMU_NODE_TYPE, whether its Flags has IOMMU_NODE_FLAG_PCIE_DEVICE,
and its BaseAddress / PcieBdf fields. -/
structure RIMT_NODE where
  TypeIsIoMmu : Bool
  PcieFlag : Bool
  BaseAddress : Nat
  PcieBdf : Nat
deriving DecidableEq, Repr

/-- The node loop of IoMmuAcpiRimtDiscovery (IoMmuDetection.c lines
203-218): every IOMMU-type node overwrites the driver state (Detected
for a PCIe device, Available for a system device) together with the
address fields; the loop never stops at the first hit.  Returns the
final context and the ordered list of DriverState stores. -/
def IoMmuAcpiRimtDiscovery : List RIMT_NODE → DriverCtx → DriverCtx × List Nat
  | [], ctx => (ctx, [])
  | n :: rest, ctx =>
    if n.TypeIsIoMmu then
      if n.PcieFlag then
        ((IoMmuAcpiRimtDiscovery rest ⟨STATE_DETECTED, true, n.PcieBdf⟩).1,
         STATE_DETECTED ::
           (IoMmuAcpiRimtDiscovery rest ⟨STATE_DETECTED, true, n.PcieBdf⟩).2)
      else
        ((IoMmuAcpiRimtDiscovery rest ⟨STATE_AVAILABLE, false, n.BaseAddress⟩).1,
         STATE_AVAILABLE ::
           (IoMmuAcpiRimtDiscovery rest ⟨STATE_AVAILABLE, false, n.BaseAddress⟩).2)
    else
      IoMmuAcpiRimtDiscovery rest ctx

/-- The state-mutating part of IoMmuDeviceTreeDiscovery
(IoMmuDetection.c lines 131-174): a system IOMMU node stores Available,
else a PCI IOMMU node stores Detected (and registers the enumeration
callback), else nothing.  Returns the context and the DriverState
stores. -/
def IoMmuDeviceTreeDiscovery (SysFound : Bool) (SysAddr : Nat)
    (PciFound : Bool) (PciReg : Nat) (ctx : DriverCtx) : DriverCtx × List Nat :=
  if SysFound then
    ({ ctx with DriverState := STATE_AVAILABLE, IoMmuIsPciDevice := false,
                Address := SysAddr }, [STATE_AVAILABLE])
  else if PciFound then
    ({ ctx with DriverState := STATE_DETECTED, IoMmuIsPciDevice := true,
                Address := PciReg }, [STATE_DETECTED])
  else (ctx, [])

/-- The state-mutating part of OnPciEnumerationComplete
(IoMmuDetection.c lines 67-95): when a matching PCI device is found it
stores Available, records the BAR address, and runs
IoMmuCommonInitialise.  Returns the context and the DriverState
stores. -/
def OnPciEnumerationComplete (DeviceFound : Bool) (BarAddr : Nat)
    (hw : IoMmuHw) (ctx : DriverCtx) : DriverCtx × List Nat :=
  if DeviceFound then
    ((IoMmuCommonInitialise
        { ctx with DriverState := STATE_AVAILABLE, Address := BarAddr } hw).ctx,
     STATE_AVAILABLE ::
       (IoMmuCommonInitialise
         { ctx with DriverState := STATE_AVAILABLE, Address := BarAddr } hw).stateStores)
  else (ctx, [])

/-- A list of DriverState stores is monotone from the current value
`cur` when no store is strictly below the state value in effect when it
happens. -/
def StoresMonotone : Nat → List Nat → Bool
  | _, [] => true
  | cur, s :: rest => decide (cur ≤ s) && StoresMonotone s rest

theorem getBits_setBits_self (v lo w x : Nat) :
    getBits (setBits v lo w x) lo w = x % 2 ^ w := by
  unfold getBits setBits
  have hlo : 0 < 2 ^ lo := Nat.pos_pow_of_pos lo (by norm_num)
  have hr : v % 2 ^ lo < 2 ^ lo := Nat.mod_lt _ hlo
  rw [pow_add]
  rw [show v / (2 ^ lo * 2 ^ w) * (2 ^ lo * 2 ^ w) + x % 2 ^ w * 2 ^ lo + v % 2 ^ lo
      = v % 2 ^ lo + 2 ^ lo * (v / (2 ^ lo * 2 ^ w) * 2 ^ w + x % 2 ^ w) by ring]
  rw [Nat.add_mul_div_left _ _ hlo]
  rw [Nat.div_eq_of_lt hr]
  simp only [Nat.zero_add]
  rw [Nat.add_comm, Nat.add_mul_mod_self_right]
  exact Nat.mod_mod_of_dvd _ dvd_rfl

theorem align4k_self_iff (v : Nat) (hv : v < U64) :
    ALIGN_VALUE v SIZE_4KB = v ↔ v % SIZE_4KB = 0 := by
  unfold ALIGN_VALUE SIZE_4KB U64 at *
  norm_num at *
  omega

theorem le_size_to_pages (n : Nat) : n ≤ SIZE_4KB * EFI_SIZE_TO_PAGES n := by
  unfold EFI_SIZE_TO_PAGES SIZE_4KB
  split <;> omega

/-- C6: for every invocation of the memoryTop computation, a set GXL bit
yields 2^32 - 1; otherwise paging modes Sv39, Sv48 and Sv57 yield
2^39 - 1, 2^48 - 1 and 2^57 - 1 respectively, and any other paging mode
is the fatal ASSERT (FALSE) abort (`none`), never a silently returned
default value. -/
theorem C6_memoryTop_values (Fctl Satp : Nat) :
    (FctlGXL Fctl = 1 →
       RiscVGetIoMmuMemoryTop Fctl Satp = some (2 ^ 32 - 1)) ∧
    (FctlGXL Fctl ≠ 1 →
       (HartSatpModeOf Satp = SATP_MODE_SV39 →
          RiscVGetIoMmuMemoryTop Fctl Satp = some (2 ^ 39 - 1)) ∧
       (HartSatpModeOf Satp = SATP_MODE_SV48 →
          RiscVGetIoMmuMemoryTop Fctl Satp = some (2 ^ 48 - 1)) ∧
       (HartSatpModeOf Satp = SATP_MODE_SV57 →
          RiscVGetIoMmuMemoryTop Fctl Satp = some (2 ^ 57 - 1)) ∧
       (HartSatpModeOf Satp ≠ SATP_MODE_SV39 →
        HartSatpModeOf Satp ≠ SATP_MODE_SV48 →
        HartSatpModeOf Satp ≠ SATP_MODE_SV57 →
          RiscVGetIoMmuMemoryTop Fctl Satp = none)) := by
  unfold RiscVGetIoMmuMemoryTop
  refine ⟨fun h => by simp [h], fun h => ⟨fun h39 => ?_, fun h48 => ?_, fun h57 => ?_,
    fun n39 n48 n57 => ?_⟩⟩ <;>
    simp_all [SATP_MODE_SV39, SATP_MODE_SV48, SATP_MODE_SV57]

/-- C6 witness: concrete evaluations discharging each hypothesis of the
theorem: GXL set (fctl = 4), and GXL clear with satp mode Sv39. -/
theorem C6_memoryTop_values_witness :
    FctlGXL 4 = 1 ∧ RiscVGetIoMmuMemoryTop 4 0 = some (2 ^ 32 - 1) ∧
    FctlGXL 0 ≠ 1 ∧ HartSatpModeOf (8 * 2 ^ 60) = SATP_MODE_SV39 ∧
    RiscVGetIoMmuMemoryTop 0 (8 * 2 ^ 60) = some (2 ^ 39 - 1) ∧
    RiscVGetIoMmuMemoryTop 0 0 = none :=
  ⟨by decide, (C6_memoryTop_values 4 0).1 (by decide), by decide, by decide,
   ((C6_memoryTop_values 0 (8 * 2 ^ 60)).2 (by decide)).1 (by decide),
   (((C6_memoryTop_values 0 0).2 (by decide)).2.2.2) (by decide) (by decide) (by decide)⟩

/-- An operation kind is a 64-bit-addressing variant
(BusMasterRead64 / BusMasterWrite64 / BusMasterCommonBuffer64). -/
def Is64BitOperation (Op : Nat) : Prop :=
  Op = EdkiiIoMmuOperationBusMasterRead64 ∨
  Op = EdkiiIoMmuOperationBusMasterWrite64 ∨
  Op = EdkiiIoMmuOperationBusMasterCommonBuffer64

instance (Op : Nat) : Decidable (Is64BitOperation Op) := by
  unfold Is64BitOperation; infer_instance

/-- An operation kind is a common-buffer variant. -/
def IsCommonBufferOperation (Op : Nat) : Prop :=
  Op = EdkiiIoMmuOperationBusMasterCommonBuffer ∨
  Op = EdkiiIoMmuOperationBusMasterCommonBuffer64

instance (Op : Nat) : Decidable (IsCommonBufferOperation Op) := by
  unfold IsCommonBufferOperation; infer_instance

/-- Claim C1's second condition as worded: some byte of the transfer
range lies at or above the 4 GiB boundary (byte addresses taken in
64-bit arithmetic). -/
def SpecSomeByteAtOrAbove4G (Host Len : Nat) : Prop :=
  ∃ i, i < Len ∧ (Host + i) % U64 ≥ SIZE_4GB

/-- The claim C1 remap predicate exactly as worded: the disjunction of
the addressable-range condition, the non-64-bit 4 GiB range condition,
and the non-common-buffer alignment condition. -/
def SpecRemapClaimC1 (Op Host Len Top : Nat) : Prop :=
  (Host + Len) % U64 ≥ Top ∨
  (¬ Is64BitOperation Op ∧ SpecSomeByteAtOrAbove4G Host Len) ∨
  (¬ IsCommonBufferOperation Op ∧ (Host % SIZE_4KB ≠ 0 ∨ Len % SIZE_4KB ≠ 0))

/-- C1 counterexample: a zero-length BusMasterRead request at the
4 KiB-aligned host address 0x100001000 under an Sv39 memoryTop.  No byte
of the (empty) range lies at or above 4 GiB and neither of the other two
conditions holds, so the claim as stated predicts no remap, yet the code
remaps: its 4 GiB test is on the exclusive range end
hostAddress + length, which exceeds 4 GiB here. -/
theorem C1_remap_counterexample :
    (IoMmuMapDecision EdkiiIoMmuOperationBusMasterRead 0x100001000 0
        (2 ^ 39 - 1)).NeedRemap = true ∧
    ¬ SpecRemapClaimC1 EdkiiIoMmuOperationBusMasterRead 0x100001000 0 (2 ^ 39 - 1) := by
  constructor
  · decide
  · rintro (h1 | ⟨-, i, hi, -⟩ | ⟨-, h3 | h3⟩)
    · revert h1; decide
    · omega
    · revert h3; decide
    · revert h3; decide

/-- C1 amended: for 64-bit host address and length, the remap decision
is exactly the disjunction of the three conditions, with the second
condition read as "hostAddress + length (in 64-bit arithmetic) exceeds
4 GiB" (for a non-empty, non-wrapping range this is precisely "some byte
lies at or above 4 GiB"); and the placement ceiling is capped at
4 GiB - 1 exactly when that second condition holds. -/
theorem C1_remap_decision (Op Host Len Top : Nat)
    (hH : Host < U64) (hL : Len < U64) :
    ((IoMmuMapDecision Op Host Len Top).NeedRemap = true ↔
      ((Host + Len) % U64 ≥ Top ∨
       (¬ Is64BitOperation Op ∧ (Host + Len) % U64 > SIZE_4GB) ∨
       (¬ IsCommonBufferOperation Op ∧ (Host % SIZE_4KB ≠ 0 ∨ Len % SIZE_4KB ≠ 0)))) ∧
    ((IoMmuMapDecision Op Host Len Top).DmaMemoryTop =
      if ¬ Is64BitOperation Op ∧ (Host + Len) % U64 > SIZE_4GB then
        min Top (SIZE_4GB - 1) else Top) := by
  have hHa : (Host ≠ ALIGN_VALUE Host SIZE_4KB) ↔ Host % SIZE_4KB ≠ 0 :=
    not_congr (Iff.trans eq_comm (align4k_self_iff Host hH))
  have hLa : (Len ≠ ALIGN_VALUE Len SIZE_4KB) ↔ Len % SIZE_4KB ≠ 0 :=
    not_congr (Iff.trans eq_comm (align4k_self_iff Len hL))
  have h2 : MapCond2 Op Host Len ↔
      (¬ Is64BitOperation Op ∧ (Host + Len) % U64 > SIZE_4GB) := by
    unfold MapCond2 Is64BitOperation
    constructor
    · rintro ⟨⟨a, b, c⟩, d⟩; exact ⟨by tauto, d⟩
    · rintro ⟨a, d⟩; exact ⟨⟨by tauto, by tauto, by tauto⟩, d⟩
  have h3 : MapCond3 Op Host Len ↔
      (¬ IsCommonBufferOperation Op ∧ (Host % SIZE_4KB ≠ 0 ∨ Len % SIZE_4KB ≠ 0)) := by
    unfold MapCond3 IsCommonBufferOperation
    rw [hHa, hLa]
    constructor
    · rintro ⟨⟨a, b⟩, d⟩; exact ⟨by tauto, d⟩
    · rintro ⟨a, d⟩; exact ⟨⟨by tauto, by tauto⟩, d⟩
  constructor
  · unfold IoMmuMapDecision
    rw [← h2, ← h3]
    by_cases c1 : MapCond1 Host Len Top <;>
      by_cases c2 : MapCond2 Op Host Len <;>
        by_cases c3 : MapCond3 Op Host Len <;>
          simp [c1, c2, c3, MapCond1]
  · unfold IoMmuMapDecision
    by_cases c2 : MapCond2 Op Host Len
    · simp [c2, if_pos (h2.1 c2)]
    · simp [c2, if_neg (fun hx => c2 (h2.2 hx))]

/-- C1 witness: the amended equivalence applied at the spec's concrete
scenario (4 KiB-aligned BusMasterRead of one page at 0x1000 under an
Sv39 memoryTop), with both side conditions discharged by computation. -/
theorem C1_remap_decision_witness :
    (0x1000 : Nat) < U64 ∧ (0x1000 : Nat) < U64 ∧
    (((IoMmuMapDecision EdkiiIoMmuOperationBusMasterRead 0x1000 0x1000
          (2 ^ 39 - 1)).NeedRemap = true ↔
       ((0x1000 + 0x1000) % U64 ≥ 2 ^ 39 - 1 ∨
        (¬ Is64BitOperation EdkiiIoMmuOperationBusMasterRead ∧
         (0x1000 + 0x1000) % U64 > SIZE_4GB) ∨
        (¬ IsCommonBufferOperation EdkiiIoMmuOperationBusMasterRead ∧
         (0x1000 % SIZE_4KB ≠ 0 ∨ 0x1000 % SIZE_4KB ≠ 0)))) ∧
     ((IoMmuMapDecision EdkiiIoMmuOperationBusMasterRead 0x1000 0x1000
          (2 ^ 39 - 1)).DmaMemoryTop =
       if ¬ Is64BitOperation EdkiiIoMmuOperationBusMasterRead ∧
          (0x1000 + 0x1000) % U64 > SIZE_4GB then
         min (2 ^ 39 - 1) (SIZE_4GB - 1) else 2 ^ 39 - 1)) :=
  ⟨by decide, by decide,
   C1_remap_decision EdkiiIoMmuOperationBusMasterRead 0x1000 0x1000 (2 ^ 39 - 1)
     (by decide) (by decide)⟩

/-- C5: a Map call with a common-buffer operation kind for which any
remap condition triggers returns the unsupported-operation error and
mutates nothing: the number of bytes is unchanged, no output parameter
is written, no MAP_INFO record survives, memory is untouched and no
pages are allocated (the check precedes the pool allocation, so even an
exhausted pool is irrelevant). -/
theorem C5_commonBufferRemapUnsupported
    (Op Host Len Fctl Satp Top0 : Nat) (PoolAvail : Bool)
    (alloc : Nat → Nat → Option Nat) (m : Mem)
    (hTop : RiscVGetIoMmuMemoryTop Fctl Satp = some Top0)
    (hOp : Op = EdkiiIoMmuOperationBusMasterCommonBuffer ∨
           Op = EdkiiIoMmuOperationBusMasterCommonBuffer64)
    (hHost : Host ≠ 0)
    (hRemap : (IoMmuMapDecision Op Host Len Top0).NeedRemap = true) :
    IoMmuMap Op Host Len Fctl Satp PoolAvail alloc m =
      some ⟨.unsupported, Len, none, none, m, none⟩ := by
  have hOpLt : ¬ Op ≥ EdkiiIoMmuOperationMaximum := by
    unfold EdkiiIoMmuOperationMaximum
    unfold EdkiiIoMmuOperationBusMasterCommonBuffer
      EdkiiIoMmuOperationBusMasterCommonBuffer64 at hOp
    omega
  unfold IoMmuMap
  rw [if_neg hOpLt, if_neg hHost, hTop]
  simp only []
  rw [if_pos ⟨hOp, hRemap⟩]

/-- C5 witness: a BusMasterCommonBuffer request whose range crosses
4 GiB forces the remap condition and is rejected as unsupported with no
state change. -/
theorem C5_commonBufferRemapUnsupported_witness :
    RiscVGetIoMmuMemoryTop 0 (8 * 2 ^ 60) = some (2 ^ 39 - 1) ∧
    (IoMmuMapDecision EdkiiIoMmuOperationBusMasterCommonBuffer 0x100000000 0x1000
        (2 ^ 39 - 1)).NeedRemap = true ∧
    IoMmuMap EdkiiIoMmuOperationBusMasterCommonBuffer 0x100000000 0x1000 0
        (8 * 2 ^ 60) true (fun _ _ => some 0) (fun _ => 0) =
      some ⟨.unsupported, 0x1000, none, none, (fun _ => 0), none⟩ :=
  ⟨by decide, by decide,
   C5_commonBufferRemapUnsupported EdkiiIoMmuOperationBusMasterCommonBuffer
     0x100000000 0x1000 0 (8 * 2 ^ 60) (2 ^ 39 - 1) true (fun _ _ => some 0)
     (fun _ => 0) (by decide) (Or.inl rfl) (by decide) (by decide)⟩

/-- C10: whenever IoMmuMap returns (rather than aborting on an assert),
a success leaves `*NumberOfBytes` at its input value — the full request
is mapped, never truncated — and the only other value ever stored there
is 0, exactly on the two resource-exhaustion failure paths (pool record
or bounce-page allocation failure). -/
theorem C10_numberOfBytes_frame
    (Op Host Len Fctl Satp : Nat) (PoolAvail : Bool)
    (alloc : Nat → Nat → Option Nat) (m : Mem) (r : MapOutcome)
    (h : IoMmuMap Op Host Len Fctl Satp PoolAvail alloc m = some r) :
    (r.status = .success → r.numberOfBytes = Len) ∧
    (r.numberOfBytes = Len ∨
      (r.numberOfBytes = 0 ∧ r.status = .outOfResources)) := by
  unfold IoMmuMap at h
  repeat' split at h
  all_goals cases h
  all_goals simp

/-- C10 witness: a concrete successful identity mapping, with the
hypothesis discharged by computation: `*NumberOfBytes` keeps its input
value 0x1000. -/
theorem C10_numberOfBytes_frame_witness :
    IoMmuMap EdkiiIoMmuOperationBusMasterRead 0x1000 0x1000 0 (8 * 2 ^ 60) true
        (fun _ _ => some 0) (fun _ => 0) =
      some ⟨.success, 0x1000, some 0x1000,
            some ⟨MAP_INFO_SIGNATURE, EdkiiIoMmuOperationBusMasterRead,
                  0x1000, 0x1000, 0x1000⟩, (fun _ => 0), none⟩ ∧
    ((MapOutcome.status ⟨.success, 0x1000, some 0x1000,
            some ⟨MAP_INFO_SIGNATURE, EdkiiIoMmuOperationBusMasterRead,
                  0x1000, 0x1000, 0x1000⟩, (fun _ => 0), none⟩ = .success →
       MapOutcome.numberOfBytes ⟨.success, 0x1000, some 0x1000,
            some ⟨MAP_INFO_SIGNATURE, EdkiiIoMmuOperationBusMasterRead,
                  0x1000, 0x1000, 0x1000⟩, (fun _ => 0), none⟩ = 0x1000) ∧
     (MapOutcome.numberOfBytes ⟨.success, 0x1000, some 0x1000,
            some ⟨MAP_INFO_SIGNATURE, EdkiiIoMmuOperationBusMasterRead,
                  0x1000, 0x1000, 0x1000⟩, (fun _ => 0), none⟩ = 0x1000 ∨
      (MapOutcome.numberOfBytes ⟨.success, 0x1000, some 0x1000,
            some ⟨MAP_INFO_SIGNATURE, EdkiiIoMmuOperationBusMasterRead,
                  0x1000, 0x1000, 0x1000⟩, (fun _ => 0), none⟩ = 0 ∧
       MapOutcome.status ⟨.success, 0x1000, some 0x1000,
            some ⟨MAP_INFO_SIGNATURE, EdkiiIoMmuOperationBusMasterRead,
                  0x1000, 0x1000, 0x1000⟩, (fun _ => 0), none⟩ = .outOfResources))) :=
  ⟨by rfl,
   C10_numberOfBytes_frame EdkiiIoMmuOperationBusMasterRead 0x1000 0x1000 0
     (8 * 2 ^ 60) true (fun _ _ => some 0) (fun _ => 0) _ (by rfl)⟩

/-- C4: (1) when Map forces a remap and the max-address page allocation
honours its ceiling, Map succeeds with the bounce buffer as the device
address, the bounce range lies at or below the placement ceiling, and
for the read-from-host kinds the host bytes are copied into the bounce
buffer before Map returns; (2) Unmap of a mapping whose device address
differs from its host address copies the bounce bytes back to the host
buffer for the write-to-host kinds and frees the bounce pages;
(3) when no remap is required Map returns the host address as the device
address and changes no memory; (4) Unmap of such an identity mapping
changes no memory and frees no pages. -/
theorem C4_bounce_copy_semantics :
    (∀ (Op Host Len Fctl Satp Top0 Addr : Nat)
       (alloc : Nat → Nat → Option Nat) (m : Mem),
       RiscVGetIoMmuMemoryTop Fctl Satp = some Top0 →
       Op < EdkiiIoMmuOperationMaximum →
       Host ≠ 0 →
       ¬ IsCommonBufferOperation Op →
       (IoMmuMapDecision Op Host Len Top0).NeedRemap = true →
       alloc (IoMmuMapDecision Op Host Len Top0).DmaMemoryTop
         (EFI_SIZE_TO_PAGES Len) = some Addr →
       Addr + SIZE_4KB * EFI_SIZE_TO_PAGES Len ≤
         (IoMmuMapDecision Op Host Len Top0).DmaMemoryTop + 1 →
       ∃ r, IoMmuMap Op Host Len Fctl Satp true alloc m = some r ∧
         r.status = .success ∧
         r.deviceAddress = some Addr ∧
         r.mapping = some ⟨MAP_INFO_SIGNATURE, Op, Host, Len, Addr⟩ ∧
         Addr + Len ≤ (IoMmuMapDecision Op Host Len Top0).DmaMemoryTop + 1 ∧
         ((Op = EdkiiIoMmuOperationBusMasterRead ∨
           Op = EdkiiIoMmuOperationBusMasterRead64) →
           ∀ i, i < Len → r.mem (Addr + i) = m (Host + i))) ∧
    (∀ (mi : MAP_INFO) (m : Mem),
       mi.Signature = MAP_INFO_SIGNATURE →
       mi.DeviceAddress ≠ mi.HostAddress →
       (IoMmuUnmap false mi m).status = .success ∧
       (IoMmuUnmap false mi m).freedPages =
         some (mi.DeviceAddress, EFI_SIZE_TO_PAGES mi.NumberOfBytes) ∧
       ((mi.Operation = EdkiiIoMmuOperationBusMasterWrite ∨
         mi.Operation = EdkiiIoMmuOperationBusMasterWrite64) →
         ∀ i, i < mi.NumberOfBytes →
           (IoMmuUnmap false mi m).mem (mi.HostAddress + i) =
             m (mi.DeviceAddress + i))) ∧
    (∀ (Op Host Len Fctl Satp Top0 : Nat)
       (alloc : Nat → Nat → Option Nat) (m : Mem),
       RiscVGetIoMmuMemoryTop Fctl Satp = some Top0 →
       Op < EdkiiIoMmuOperationMaximum →
       Host ≠ 0 →
       (IoMmuMapDecision Op Host Len Top0).NeedRemap = false →
       IoMmuMap Op Host Len Fctl Satp true alloc m =
         some ⟨.success, Len, some Host,
               some ⟨MAP_INFO_SIGNATURE, Op, Host, Len, Host⟩, m, none⟩) ∧
    (∀ (mi : MAP_INFO) (m : Mem),
       mi.Signature = MAP_INFO_SIGNATURE →
       mi.DeviceAddress = mi.HostAddress →
       (IoMmuUnmap false mi m).status = .success ∧
       (IoMmuUnmap false mi m).mem = m ∧
       (IoMmuUnmap false mi m).freedPages = none) := by
  refine ⟨?_, ?_, ?_, ?_⟩
  · intro Op Host Len Fctl Satp Top0 Addr alloc m hTop hOp hHost hCB hRemap hAlloc hBound
    have hOpGe : ¬ Op ≥ EdkiiIoMmuOperationMaximum := by omega
    have hCB' : ¬ ((Op = EdkiiIoMmuOperationBusMasterCommonBuffer ∨
        Op = EdkiiIoMmuOperationBusMasterCommonBuffer64) ∧
        (IoMmuMapDecision Op Host Len Top0).NeedRemap = true) := by
      unfold IsCommonBufferOperation at hCB
      exact fun hx => hCB hx.1
    have hLen := le_size_to_pages Len
    have heq : IoMmuMap Op Host Len Fctl Satp true alloc m =
        some ⟨.success, Len, some Addr,
              some ⟨MAP_INFO_SIGNATURE, Op, Host, Len, Addr⟩,
              (if Op = EdkiiIoMmuOperationBusMasterRead ∨
                  Op = EdkiiIoMmuOperationBusMasterRead64 then
                 CopyMem Addr Host Len m
               else m),
              some (Addr, EFI_SIZE_TO_PAGES Len)⟩ := by
      unfold IoMmuMap
      rw [if_neg hOpGe, if_neg hHost, hTop]
      simp only []
      rw [if_neg hCB', if_neg (by simp), if_pos hRemap, hAlloc]
    refine ⟨_, heq, rfl, rfl, rfl, ?_, ?_⟩
    · unfold SIZE_4KB at hBound hLen
      omega
    · intro hRead i hi
      simp only [if_pos hRead]
      unfold CopyMem
      rw [if_pos ⟨Nat.le_add_right _ _, by omega⟩]
      congr 1
      omega
  · intro mi m hSig hNe
    unfold IoMmuUnmap
    rw [if_neg (by simp), if_neg (by simp [hSig]), if_pos hNe]
    refine ⟨rfl, rfl, ?_⟩
    intro hWrite i hi
    simp only [if_pos hWrite]
    unfold CopyMem
    rw [if_pos ⟨Nat.le_add_right _ _, by omega⟩]
    congr 1
    omega
  · intro Op Host Len Fctl Satp Top0 alloc m hTop hOp hHost hNoRemap
    have hOpGe : ¬ Op ≥ EdkiiIoMmuOperationMaximum := by omega
    unfold IoMmuMap
    rw [if_neg hOpGe, if_neg hHost, hTop]
    simp only []
    rw [if_neg (by simp [hNoRemap]), if_neg (by simp), if_neg (by simp [hNoRemap])]
  · intro mi m hSig hEq
    unfold IoMmuUnmap
    rw [if_neg (by simp), if_neg (by simp [hSig]), if_neg (by simp [hEq])]
    exact ⟨rfl, rfl, rfl⟩

/-- C4 witness: part (1) of the theorem applied to a concrete forced
remap — a one-page BusMasterRead at host address 2^32 under an Sv39
memoryTop, bounce pages granted at 0x1000 — with every hypothesis
discharged by computation. -/
theorem C4_bounce_copy_semantics_witness :
    RiscVGetIoMmuMemoryTop 0 (8 * 2 ^ 60) = some (2 ^ 39 - 1) ∧
    EdkiiIoMmuOperationBusMasterRead < EdkiiIoMmuOperationMaximum ∧
    (0x100000000 : Nat) ≠ 0 ∧
    ¬ IsCommonBufferOperation EdkiiIoMmuOperationBusMasterRead ∧
    (IoMmuMapDecision EdkiiIoMmuOperationBusMasterRead 0x100000000 0x1000
        (2 ^ 39 - 1)).NeedRemap = true ∧
    (0x1000 : Nat) + SIZE_4KB * EFI_SIZE_TO_PAGES 0x1000 ≤
      (IoMmuMapDecision EdkiiIoMmuOperationBusMasterRead 0x100000000 0x1000
        (2 ^ 39 - 1)).DmaMemoryTop + 1 ∧
    (∃ r, IoMmuMap EdkiiIoMmuOperationBusMasterRead 0x100000000 0x1000 0
        (8 * 2 ^ 60) true (fun _ _ => some 0x1000) (fun a => a % 256) = some r ∧
      r.status = .success ∧
      r.deviceAddress = some 0x1000 ∧
      r.mapping = some ⟨MAP_INFO_SIGNATURE, EdkiiIoMmuOperationBusMasterRead,
                        0x100000000, 0x1000, 0x1000⟩ ∧
      0x1000 + 0x1000 ≤ (IoMmuMapDecision EdkiiIoMmuOperationBusMasterRead
        0x100000000 0x1000 (2 ^ 39 - 1)).DmaMemoryTop + 1 ∧
      ((EdkiiIoMmuOperationBusMasterRead = EdkiiIoMmuOperationBusMasterRead ∨
        EdkiiIoMmuOperationBusMasterRead = EdkiiIoMmuOperationBusMasterRead64) →
        ∀ i, i < 0x1000 →
          r.mem (0x1000 + i) = (fun a => a % 256) (0x100000000 + i))) :=
  ⟨by decide, by decide, by decide, by decide, by decide, by decide,
   C4_bounce_copy_semantics.1 EdkiiIoMmuOperationBusMasterRead 0x100000000 0x1000
     0 (8 * 2 ^ 60) (2 ^ 39 - 1) 0x1000 (fun _ _ => some 0x1000) (fun a => a % 256)
     (by decide) (by decide) (by decide) (by decide) (by decide) rfl (by decide)⟩

theorem commonInitialise_of_ge (c : DriverCtx) (hw : IoMmuHw)
    (h : c.DriverState ≥ STATE_INITIALISED) :
    IoMmuCommonInitialise c hw = ⟨.success, c, [], []⟩ := by
  unfold IoMmuCommonInitialise
  rw [if_pos h]

theorem commonInitialise_state_ge (c : DriverCtx) (hw : IoMmuHw) :
    STATE_INITIALISED ≤ (IoMmuCommonInitialise c hw).ctx.DriverState := by
  unfold IoMmuCommonInitialise
  by_cases h : c.DriverState ≥ STATE_INITIALISED
  · rw [if_pos h]; exact h
  · rw [if_neg h]

/-- C2 counterexample: with the hardware in reset but reporting
capability version 0x20 instead of the supported 0x10, the
initialization worker called at state Detected does return Unsupported,
but the driver state does not remain at Detected: the function advances
it to Initialised before the version check. -/
theorem C2_version_counterexample :
    (IoMmuCommonInitialise ⟨STATE_DETECTED, false, 0⟩
        ⟨0, 0, 0, 0, 0, 0x20, 0, 0, 8 * 2 ^ 60, fun _ => true,
         0x10000, 0x20000, 0x30000, 0x40000, 0⟩).status = .unsupported ∧
    (IoMmuCommonInitialise ⟨STATE_DETECTED, false, 0⟩
        ⟨0, 0, 0, 0, 0, 0x20, 0, 0, 8 * 2 ^ 60, fun _ => true,
         0x10000, 0x20000, 0x30000, 0x40000, 0⟩).ctx.DriverState ≠
      STATE_DETECTED := by
  constructor
  · rfl
  · decide

/-- C2 amended: when the capability version field differs from 0x10 and
the device is in reset, IoMmuCommonInitialise (called below
Initialised) returns Unsupported and performs no register write, but the
global driver state has been advanced to Initialised on entry — the
function's reentrancy guard — so it does not remain at Detected. -/
theorem C2_version_mismatch (ctx : DriverCtx) (hw : IoMmuHw)
    (hState : ctx.DriverState < STATE_INITIALISED)
    (hReset : IoMmuIsReset hw = true)
    (hVer : getBits hw.Capabilities 0 8 ≠ V_RISCV_IOMMU_CAPABILITIES_VERSION_1_0) :
    (IoMmuCommonInitialise ctx hw).status = .unsupported ∧
    (IoMmuCommonInitialise ctx hw).ctx =
      { ctx with DriverState := STATE_INITIALISED } ∧
    (IoMmuCommonInitialise ctx hw).regWrites = [] := by
  have h1 : ¬ ctx.DriverState ≥ STATE_INITIALISED := by omega
  have h2 : ¬ ¬ (IoMmuIsReset hw = true) := by simp [hReset]
  have hInit : InitialiseRiscVIoMmu hw = (.unsupported, []) := by
    unfold InitialiseRiscVIoMmu
    rw [if_neg h2, if_pos hVer]
  unfold IoMmuCommonInitialise
  rw [if_neg h1, hInit]
  exact ⟨rfl, rfl, rfl⟩

/-- C2 witness: the amended theorem applied at the counterexample's
concrete input, every hypothesis discharged by computation. -/
theorem C2_version_mismatch_witness :
    (STATE_DETECTED : Nat) < STATE_INITIALISED ∧
    IoMmuIsReset ⟨0, 0, 0, 0, 0, 0x20, 0, 0, 8 * 2 ^ 60, fun _ => true,
        0x10000, 0x20000, 0x30000, 0x40000, 0⟩ = true ∧
    getBits 0x20 0 8 ≠ V_RISCV_IOMMU_CAPABILITIES_VERSION_1_0 ∧
    ((IoMmuCommonInitialise ⟨STATE_AVAILABLE, false, 0⟩
        ⟨0, 0, 0, 0, 0, 0x20, 0, 0, 8 * 2 ^ 60, fun _ => true,
         0x10000, 0x20000, 0x30000, 0x40000, 0⟩).status = .unsupported ∧
     (IoMmuCommonInitialise ⟨STATE_AVAILABLE, false, 0⟩
        ⟨0, 0, 0, 0, 0, 0x20, 0, 0, 8 * 2 ^ 60, fun _ => true,
         0x10000, 0x20000, 0x30000, 0x40000, 0⟩).ctx =
       ⟨STATE_INITIALISED, false, 0⟩ ∧
     (IoMmuCommonInitialise ⟨STATE_AVAILABLE, false, 0⟩
        ⟨0, 0, 0, 0, 0, 0x20, 0, 0, 8 * 2 ^ 60, fun _ => true,
         0x10000, 0x20000, 0x30000, 0x40000, 0⟩).regWrites = []) :=
  ⟨by decide, by decide, by decide,
   C2_version_mismatch ⟨STATE_AVAILABLE, false, 0⟩
     ⟨0, 0, 0, 0, 0, 0x20, 0, 0, 8 * 2 ^ 60, fun _ => true,
      0x10000, 0x20000, 0x30000, 0x40000, 0⟩
     (by decide) (by decide) (by decide)⟩

/-- C7: once the driver state has reached Initialised — which the first
call establishes — a second IoMmuCommonInitialise call is a no-op that
returns success: it leaves the context untouched and performs no
register write, so across the two consecutive calls the hardware
programming is exactly that of the first call. -/
theorem C7_initialise_idempotent (ctx : DriverCtx) (hw : IoMmuHw) :
    (IoMmuCommonInitialise (IoMmuCommonInitialise ctx hw).ctx hw).status =
      .success ∧
    (IoMmuCommonInitialise (IoMmuCommonInitialise ctx hw).ctx hw).ctx =
      (IoMmuCommonInitialise ctx hw).ctx ∧
    (IoMmuCommonInitialise (IoMmuCommonInitialise ctx hw).ctx hw).regWrites =
      [] ∧
    (IoMmuCommonInitialise ctx hw).regWrites ++
      (IoMmuCommonInitialise (IoMmuCommonInitialise ctx hw).ctx hw).regWrites =
      (IoMmuCommonInitialise ctx hw).regWrites := by
  rw [commonInitialise_of_ge _ hw (commonInitialise_state_ge ctx hw)]
  exact ⟨rfl, rfl, rfl, by simp⟩

/-- No system (non-PCIe) IOMMU node is followed by a PCIe IOMMU node in
the RIMT node list: the order under which the ACPI walk's state stores
cannot regress. -/
def NoSystemNodeBeforePcieNode : List RIMT_NODE → Bool
  | [] => true
  | n :: rest =>
    if n.TypeIsIoMmu && !n.PcieFlag then
      rest.all (fun m => !(m.TypeIsIoMmu && m.PcieFlag))
    else
      NoSystemNodeBeforePcieNode rest

theorem noPcie_noSystemBefore (l : List RIMT_NODE)
    (h : l.all (fun m => !(m.TypeIsIoMmu && m.PcieFlag)) = true) :
    NoSystemNodeBeforePcieNode l = true := by
  induction l with
  | nil => rfl
  | cons n rest ih =>
    unfold NoSystemNodeBeforePcieNode
    rw [List.all_cons, Bool.and_eq_true] at h
    split
    · exact h.2
    · exact ih h.2

theorem rimt_monotone_aux (nodes : List RIMT_NODE) (ctx : DriverCtx)
    (hle : ctx.DriverState ≤ STATE_AVAILABLE)
    (hav : ctx.DriverState = STATE_AVAILABLE →
      nodes.all (fun m => !(m.TypeIsIoMmu && m.PcieFlag)) = true)
    (hns : NoSystemNodeBeforePcieNode nodes = true) :
    StoresMonotone ctx.DriverState (IoMmuAcpiRimtDiscovery nodes ctx).2 = true := by
  induction nodes generalizing ctx with
  | nil => rfl
  | cons n rest ih =>
    unfold IoMmuAcpiRimtDiscovery
    unfold NoSystemNodeBeforePcieNode at hns
    by_cases hio : n.TypeIsIoMmu
    · by_cases hp : n.PcieFlag = true
      · rw [if_neg (by simp [hio, hp])] at hns
        have hcur : ctx.DriverState ≤ STATE_DETECTED := by
          by_cases heq : ctx.DriverState = STATE_AVAILABLE
          · exfalso
            have h' := hav heq
            rw [List.all_cons, Bool.and_eq_true] at h'
            simp [hio, hp] at h'
          · unfold STATE_DETECTED
            unfold STATE_AVAILABLE at hle heq
            omega
        have hih := ih (⟨STATE_DETECTED, true, n.PcieBdf⟩ : DriverCtx)
          (by simp [STATE_DETECTED, STATE_AVAILABLE])
          (fun h => absurd h (by simp [STATE_DETECTED, STATE_AVAILABLE])) hns
        rw [if_pos hio, if_pos hp]
        simp only [StoresMonotone, Bool.and_eq_true, decide_eq_true_eq]
        exact ⟨hcur, hih⟩
      · rw [if_pos (by simp [hio, hp])] at hns
        have hih := ih (⟨STATE_AVAILABLE, false, n.BaseAddress⟩ : DriverCtx)
          (le_refl _) (fun _ => hns) (noPcie_noSystemBefore _ hns)
        rw [if_pos hio, if_neg hp]
        simp only [StoresMonotone, Bool.and_eq_true, decide_eq_true_eq]
        exact ⟨hle, hih⟩
    · rw [if_neg (by simp [hio])] at hns
      rw [if_neg hio]
      refine ih ctx hle (fun h => ?_) hns
      have h' := hav h
      rw [List.all_cons, Bool.and_eq_true] at h'
      exact h'.2

/-- C8 counterexample: the ACPI RIMT walk on a table holding a system
IOMMU node followed by a PCIe IOMMU node, entered in the reachable
state Init, stores Available and then stores Detected over it — a store
strictly lower than the current driver state, refuting monotonicity. -/
theorem C8_monotonicity_counterexample :
    StoresMonotone STATE_INIT
      (IoMmuAcpiRimtDiscovery [⟨true, false, 0x9000, 0⟩, ⟨true, true, 0, 0x10⟩]
        ⟨STATE_INIT, false, 0⟩).2 = false ∧
    (IoMmuAcpiRimtDiscovery [⟨true, false, 0x9000, 0⟩, ⟨true, true, 0, 0x10⟩]
        ⟨STATE_INIT, false, 0⟩).2 = [STATE_AVAILABLE, STATE_DETECTED] := by
  constructor <;> decide

/-- C8 amended: every driverState store is non-decreasing except inside
the ACPI RIMT node walk, which visits every IOMMU node: (a) the
initialization worker never lowers the state; (b) device-tree discovery
entered at or below Detected never lowers it; (c) the PCI-enumeration
callback entered at or below Available never lowers it; (d) the RIMT
walk entered at Init performs only non-decreasing stores provided no
PCIe IOMMU node follows a system IOMMU node in the table (otherwise it
regresses Available to Detected, as the counterexample shows). -/
theorem C8_monotonicity_amended :
    (∀ (ctx : DriverCtx) (hw : IoMmuHw),
       StoresMonotone ctx.DriverState
         (IoMmuCommonInitialise ctx hw).stateStores = true) ∧
    (∀ (Sys : Bool) (A : Nat) (Pci : Bool) (R : Nat) (ctx : DriverCtx),
       ctx.DriverState ≤ STATE_DETECTED →
       StoresMonotone ctx.DriverState
         (IoMmuDeviceTreeDiscovery Sys A Pci R ctx).2 = true) ∧
    (∀ (Found : Bool) (Bar : Nat) (hw : IoMmuHw) (ctx : DriverCtx),
       ctx.DriverState ≤ STATE_AVAILABLE →
       StoresMonotone ctx.DriverState
         (OnPciEnumerationComplete Found Bar hw ctx).2 = true) ∧
    (∀ (nodes : List RIMT_NODE) (ctx : DriverCtx),
       ctx.DriverState = STATE_INIT →
       NoSystemNodeBeforePcieNode nodes = true →
       StoresMonotone ctx.DriverState
         (IoMmuAcpiRimtDiscovery nodes ctx).2 = true) := by
  refine ⟨?_, ?_, ?_, ?_⟩
  · intro ctx hw
    unfold IoMmuCommonInitialise
    by_cases h : ctx.DriverState ≥ STATE_INITIALISED
    · rw [if_pos h]; rfl
    · rw [if_neg h]
      unfold STATE_INITIALISED at h
      simp [StoresMonotone, STATE_INITIALISED]
      omega
  · intro Sys A Pci R ctx hle
    unfold IoMmuDeviceTreeDiscovery
    unfold STATE_DETECTED at hle
    by_cases hs : Sys = true
    · rw [if_pos hs]
      simp [StoresMonotone, STATE_AVAILABLE]
      omega
    · rw [if_neg hs]
      by_cases hp : Pci = true
      · rw [if_pos hp]
        simp [StoresMonotone, STATE_DETECTED]
        omega
      · rw [if_neg hp]; rfl
  · intro Found Bar hw ctx hle
    unfold OnPciEnumerationComplete
    by_cases hf : Found = true
    · rw [if_pos hf]
      unfold IoMmuCommonInitialise
      rw [if_neg (by simp [STATE_AVAILABLE, STATE_INITIALISED])]
      unfold STATE_AVAILABLE at hle
      simp [StoresMonotone, STATE_AVAILABLE, STATE_INITIALISED]
      omega
    · rw [if_neg hf]; rfl
  · intro nodes ctx h0 hns
    refine rimt_monotone_aux nodes ctx ?_ (fun h => ?_) hns
    · rw [h0]
      unfold STATE_INIT STATE_AVAILABLE
      omega
    · rw [h0] at h
      exact absurd h (by simp [STATE_INIT, STATE_AVAILABLE])

/-- C8 witness: part (d) of the amended theorem applied to a concrete
RIMT table whose PCIe IOMMU node precedes its system IOMMU node — the
store sequence Detected, Available is monotone. -/
theorem C8_monotonicity_amended_witness :
    (⟨STATE_INIT, false, 0⟩ : DriverCtx).DriverState = STATE_INIT ∧
    NoSystemNodeBeforePcieNode
      [⟨true, true, 0, 0x10⟩, ⟨true, false, 0x9000, 0⟩] = true ∧
    StoresMonotone (⟨STATE_INIT, false, 0⟩ : DriverCtx).DriverState
      (IoMmuAcpiRimtDiscovery [⟨true, true, 0, 0x10⟩, ⟨true, false, 0x9000, 0⟩]
        ⟨STATE_INIT, false, 0⟩).2 = true :=
  ⟨rfl, by decide,
   C8_monotonicity_amended.2.2.2 [⟨true, true, 0, 0x10⟩, ⟨true, false, 0x9000, 0⟩]
     ⟨STATE_INIT, false, 0⟩ rfl (by decide)⟩

/-- Per-level device-id capacity as the claim words it: a function of
the extended-layout flag for one and two levels (the same constants the
code compares against), and 24 bits for three levels. -/
def LevelCapacity (ContextStructIsExtended : Bool) (L : Nat) : Nat :=
  if L = 1 then
    (if ContextStructIsExtended then N_RISCV_IOMMU_DEVICE_ID_EXTENDED_I1
     else N_RISCV_IOMMU_DEVICE_ID_BASE_I1)
  else if L = 2 then
    (if ContextStructIsExtended then N_RISCV_IOMMU_DEVICE_ID_EXTENDED_I2
     else N_RISCV_IOMMU_DEVICE_ID_BASE_I2)
  else 24

/-- The smallest level count in {1, 2, 3} whose capacity is at least the
required width, as claim C3 words it; `none` when no level suffices. -/
def SmallestSufficientLevelCount (ContextStructIsExtended : Bool) (W : Nat) :
    Option Nat :=
  if W ≤ LevelCapacity ContextStructIsExtended 1 then some 1
  else if W ≤ LevelCapacity ContextStructIsExtended 2 then some 2
  else if W ≤ LevelCapacity ContextStructIsExtended 3 then some 3
  else none

/-- C3 counterexample: for width 25 no level count up to 3 suffices, yet
ProgramContextRoot does not fail: the mode variable keeps its BARE
initialisation, the hardware (which must accept Bare mode) reads it
back unchanged, and the function returns success — initialization does
not fail with Unsupported. -/
theorem C3_level_selection_counterexample :
    SmallestSufficientLevelCount false 25 = none ∧
    ProgramContextRootMode false 25 = V_RISCV_IOMMU_DDTP_IOMMU_MODE_BARE ∧
    (ProgramContextRoot 0 25 0x40000 0 0 (fun _ => true)).1 = true := by
  refine ⟨by decide, by decide, by decide⟩

/-- C3 amended: the cascaded mode selection picks exactly the smallest
sufficient level count whenever one exists (the chosen DDTP mode is
BARE + level); when no level count up to 3 suffices the mode variable
keeps its BARE initialisation and ProgramContextRoot proceeds and
succeeds on hardware that accepts every mode, instead of failing with
Unsupported (unreachable in the shipped driver, whose width is fixed
at 16). -/
theorem C3_level_selection (E : Bool) (W : Nat) :
    (∀ L, SmallestSufficientLevelCount E W = some L →
       ProgramContextRootMode E W = V_RISCV_IOMMU_DDTP_IOMMU_MODE_BARE + L) ∧
    (SmallestSufficientLevelCount E W = none →
       ProgramContextRootMode E W = V_RISCV_IOMMU_DDTP_IOMMU_MODE_BARE) ∧
    (∀ Cap Buf Junk Rst,
       (ProgramContextRoot Cap W Buf Junk Rst (fun _ => true)).1 = true) := by
  refine ⟨?_, ?_, ?_⟩
  · intro L hL
    unfold SmallestSufficientLevelCount LevelCapacity at hL
    unfold ProgramContextRootMode
    unfold N_RISCV_IOMMU_DEVICE_ID_EXTENDED_I1 N_RISCV_IOMMU_DEVICE_ID_BASE_I1
      N_RISCV_IOMMU_DEVICE_ID_EXTENDED_I2 N_RISCV_IOMMU_DEVICE_ID_BASE_I2 at hL ⊢
    unfold V_RISCV_IOMMU_DDTP_IOMMU_MODE_BARE V_RISCV_IOMMU_DDTP_IOMMU_MODE_1LVL
      V_RISCV_IOMMU_DDTP_IOMMU_MODE_2LVL V_RISCV_IOMMU_DDTP_IOMMU_MODE_3LVL
    cases E <;> simp only [Bool.false_eq_true, if_true, if_false, ite_true,
      ite_false, reduceIte] at hL ⊢ <;>
      split_ifs at hL ⊢ <;> simp_all <;> omega
  · intro hN
    unfold SmallestSufficientLevelCount LevelCapacity at hN
    unfold ProgramContextRootMode
    unfold N_RISCV_IOMMU_DEVICE_ID_EXTENDED_I1 N_RISCV_IOMMU_DEVICE_ID_BASE_I1
      N_RISCV_IOMMU_DEVICE_ID_EXTENDED_I2 N_RISCV_IOMMU_DEVICE_ID_BASE_I2 at hN ⊢
    cases E <;> simp only [Bool.false_eq_true, if_true, if_false, ite_true,
      ite_false, reduceIte] at hN ⊢ <;>
      split_ifs at hN ⊢ <;> simp_all
  · intro Cap Buf Junk Rst
    unfold ProgramContextRoot
    have hmode : ∀ M, M < 16 →
        getBits (setBits Junk 0 4 M) 0 4 = M := by
      intro M hM
      rw [getBits_setBits_self]
      omega
    have hlt : ProgramContextRootMode (decide (getBits Cap 22 1 = 1)) W < 16 := by
      unfold ProgramContextRootMode V_RISCV_IOMMU_DDTP_IOMMU_MODE_BARE
        V_RISCV_IOMMU_DDTP_IOMMU_MODE_1LVL V_RISCV_IOMMU_DDTP_IOMMU_MODE_2LVL
        V_RISCV_IOMMU_DDTP_IOMMU_MODE_3LVL
      split_ifs <;> omega
    simp only [hmode _ hlt, if_pos rfl]
    rw [if_neg (by simp [hmode _ hlt])]

/-- C3 witness: the selection theorem applied at the driver's actual
width 16 with the base layout: the smallest sufficient level count is 2
and the chosen mode is BARE + 2 (the two-level mode). -/
theorem C3_level_selection_witness :
    SmallestSufficientLevelCount false 16 = some 2 ∧
    ProgramContextRootMode false 16 = V_RISCV_IOMMU_DDTP_IOMMU_MODE_BARE + 2 :=
  ⟨by decide, (C3_level_selection false 16).1 2 (by decide)⟩

/-- C9: for every entry count 2^k in {2, 4, ..., 128}, AllocateQueue's
first register write programs the queue base register with
log2(entryCount) - 1 = k - 1 in the five-bit size field, and an entry
count whose log2 value exceeds the hardware maximum of 16 fails the
assertion and produces no register write at all. -/
theorem C9_queue_size_encoding :
    (∀ (k QueueType Buf Junk : Nat), 1 ≤ k → k ≤ 7 →
       QueueType ≤ QUEUE_PAGE_REQUEST →
       ∃ BaseReg HtReg CsrReg,
         AllocateQueue QueueType (2 ^ k) Buf Junk =
           some [(BaseReg, setBits (setBits Junk 10 44 (Buf / 2 ^ 12)) 0 5 (k - 1)),
                 (HtReg, 0), (CsrReg, setBits Junk 0 1 1)] ∧
         getBits (setBits (setBits Junk 10 44 (Buf / 2 ^ 12)) 0 5 (k - 1)) 0 5 =
           k - 1) ∧
    (∀ (QueueType EntryCount Buf Junk : Nat), EntryCount < 2 ^ 32 →
       16 < Nat.log2 EntryCount →
       AllocateQueue QueueType EntryCount Buf Junk = none) := by
  constructor
  · intro k QueueType Buf Junk hk1 hk7 hqt
    have hlt32 : (2 : Nat) ^ k < 2 ^ 32 := by
      calc (2 : Nat) ^ k ≤ 2 ^ 7 := Nat.pow_le_pow_right (by norm_num) hk7
      _ < 2 ^ 32 := by norm_num
    have hne : (2 : Nat) ^ k ≠ 0 := (Nat.pos_pow_of_pos k (by norm_num)).ne'
    have heven : (2 : Nat) ^ k % 2 = 0 := by
      cases k with
      | zero => omega
      | succ k' => rw [pow_succ]; exact Nat.mul_mod_left _ _
    have hlog : Log2SizeOf (2 ^ k) = k := by
      unfold Log2SizeOf
      rw [Nat.mod_eq_of_lt hlt32, if_neg hne, Nat.log2_eq_log_two,
        Nat.log_pow (by norm_num)]
    have hsub : sub64 k 1 = k - 1 := by
      unfold sub64 U64
      have : k % 2 ^ 64 = k := Nat.mod_eq_of_lt (by omega)
      rw [this]
      norm_num
      omega
    have hbody : ∀ B H C : Nat,
        AllocateQueueRegs B H C (2 ^ k) Buf Junk =
          some [(B, setBits (setBits Junk 10 44 (Buf / 2 ^ 12)) 0 5 (k - 1)),
                (H, 0), (C, setBits Junk 0 1 1)] := by
      intro B H C
      unfold AllocateQueueRegs
      rw [hlog, hsub]
      rw [if_neg (by simp [hne, heven]), if_neg (by unfold QUEUE_MAX_LOG_SIZE; omega)]
    have hfield : getBits (setBits (setBits Junk 10 44 (Buf / 2 ^ 12)) 0 5 (k - 1))
        0 5 = k - 1 := by
      rw [getBits_setBits_self]
      have : k - 1 < 2 ^ 5 := by omega
      exact Nat.mod_eq_of_lt this
    unfold QUEUE_PAGE_REQUEST at hqt
    interval_cases QueueType
    · exact ⟨0x18, 0x24, 0x48, by
        unfold AllocateQueue
        rw [if_pos (by decide)]
        exact hbody _ _ _, hfield⟩
    · exact ⟨0x28, 0x30, 0x4c, by
        unfold AllocateQueue
        rw [if_neg (by decide), if_pos (by decide)]
        exact hbody _ _ _, hfield⟩
    · exact ⟨0x38, 0x40, 0x50, by
        unfold AllocateQueue
        rw [if_neg (by decide), if_neg (by decide), if_pos (by decide)]
        exact hbody _ _ _, hfield⟩
  · intro QueueType EntryCount Buf Junk hlt hlog
    have hne : EntryCount ≠ 0 := by
      intro h
      rw [h] at hlog
      simp [Nat.log2] at hlog
    have h32 : Nat.log2 EntryCount < 32 := (Nat.log2_lt hne).2 hlt
    have hfail : ¬ (sub64 (Log2SizeOf EntryCount) 1 < QUEUE_MAX_LOG_SIZE) := by
      unfold Log2SizeOf
      rw [Nat.mod_eq_of_lt hlt, if_neg hne]
      unfold sub64 U64 QUEUE_MAX_LOG_SIZE
      have : Nat.log2 EntryCount % 2 ^ 64 = Nat.log2 EntryCount :=
        Nat.mod_eq_of_lt (by omega)
      rw [this]
      omega
    have hbody : ∀ B H C : Nat,
        AllocateQueueRegs B H C EntryCount Buf Junk = none := by
      intro B H C
      unfold AllocateQueueRegs
      by_cases hOk : EntryCount ≠ 0 ∧ EntryCount % 2 = 0
      · rw [if_neg (by simp [hOk]), if_pos hfail]
      · rw [if_pos hOk]
    unfold AllocateQueue
    split
    · exact hbody _ _ _
    · split
      · exact hbody _ _ _
      · split
        · exact hbody _ _ _
        · rfl

/-- C9 witness: the encoding theorem applied at the driver's actual
entry count 128 = 2^7 (size field 6) for the command queue, and the
rejection branch applied to 2^17 entries, whose log2 (17) exceeds the
hardware maximum of 16. -/
theorem C9_queue_size_encoding_witness :
    ((1 : Nat) ≤ 7 ∧ (7 : Nat) ≤ 7 ∧ QUEUE_COMMAND ≤ QUEUE_PAGE_REQUEST) ∧
    (∃ BaseReg HtReg CsrReg,
       AllocateQueue QUEUE_COMMAND (2 ^ 7) 0x10000 0 =
         some [(BaseReg, setBits (setBits 0 10 44 (0x10000 / 2 ^ 12)) 0 5 (7 - 1)),
               (HtReg, 0), (CsrReg, setBits 0 0 1 1)] ∧
       getBits (setBits (setBits 0 10 44 (0x10000 / 2 ^ 12)) 0 5 (7 - 1)) 0 5 =
         7 - 1) ∧
    ((2 ^ 17 : Nat) < 2 ^ 32 ∧ 16 < Nat.log2 (2 ^ 17)) ∧
    AllocateQueue QUEUE_FAULT (2 ^ 17) 0x10000 0 = none := by
  have hl : 16 < Nat.log2 (2 ^ 17) := by
    rw [Nat.log2_eq_log_two, Nat.log_pow (by norm_num)]
    norm_num
  exact ⟨⟨by decide, by decide, by decide⟩,
    C9_queue_size_encoding.1 7 QUEUE_COMMAND 0x10000 0 (by decide) (by decide)
      (by decide),
    ⟨by decide, hl⟩,
    C9_queue_size_encoding.2 QUEUE_FAULT (2 ^ 17) 0x10000 0 (by decide) hl⟩
